import Mathlib

/-!
# Verification of the ionic-cloud push registration coordinator

A shallow embedding of `src/push/push.ts` (class `Push`): the coordinator
state (single-flight lock flags, in-memory token cache, persisted record,
plugin handle, subscriptions) and the operations `register`, `saveToken`,
`unregister`, the `token` getter/setter and the constructor.

Asynchrony is modelled by splitting each operation into its synchronous
part (run atomically by the single-threaded event loop) and the callback
bodies that the event loop runs later (the `device:ready` once-handler,
the plugin `registration` handlers, the HTTP `.end` callbacks).  A
synchronous JavaScript exception (a `TypeError` from dereferencing an
absent storage record) is modelled by returning `none`.
-/

namespace IonicPush

/-- Modelled from the spec: class `PushToken` (file `src/push/token.ts` is
not under `src/`).  Per spec §3/§4.1 it wraps an opaque token string with
two independent boolean flags `registered` and `saved`, both initially
false; `push.ts` constructs it as `new PushToken(string)` and sets the
flags afterwards. -/
structure PushToken where
  token : String
  registered : Bool := false
  saved : Bool := false
deriving Repr, DecidableEq

/-- The persisted record stored under the fixed storage key `push_token`:
shape `{ token: string }` (from the setter `this.storage.set('push_token',
{ 'token': val.token })`). -/
structure PushStorageObject where
  token : String
deriving Repr, DecidableEq

/-- The wire shape `ServiceTokenData` from `push.ts`:
`{ token: string; app_id: string; user_id?: string }`. -/
structure ServiceTokenData where
  token : String
  app_id : String
  user_id : Option String := none
deriving Repr, DecidableEq

/-- The mutable per-coordinator state of class `Push`:
the three single-flight lock flags, the `registered` flag, the in-memory
token cache `_token` (JS `undefined`/`null` are `none`), the record held
by the storage collaborator under the fixed key `push_token`, whether the
plugin handle `this.plugin` has been assigned, and the subscription
counts (pending `emitter.once('device:ready', ...)` handlers, plugin
`registration` handlers attached by `register()` at line 177, and rounds
of the three permanent handlers attached by `_callbackRegistration`). -/
structure PushState where
  blockRegistration : Bool
  blockUnregister : Bool
  blockSaveToken : Bool
  registered : Bool
  _token : Option PushToken
  storage : Option PushStorageObject
  pluginSet : Bool
  onceDeviceReadySubs : Nat
  deferredRegSubs : Nat
  permanentSubRounds : Nat
deriving Repr, DecidableEq

/-- The field-initializer state of a freshly constructed `Push` (all lock
flags false, `_token` undefined, no plugin handle, no subscriptions); the
storage collaborator is injected and may already hold a record. -/
def initialState (storage : Option PushStorageObject) : PushState :=
  { blockRegistration := false
    blockUnregister := false
    blockSaveToken := false
    registered := false
    _token := none
    storage := storage
    pluginSet := false
    onceDeviceReadySubs := 0
    deferredRegSubs := 0
    permanentSubRounds := 0 }

/-- Read-only collaborators consumed by the operations: the configured
app id (`this.config.get('app_id')`), the authentication collaborator
(`this.auth.isAuthenticated()`) and the current user's id
(`this.userService.current().id`). -/
structure PushCollab where
  appId : String
  isAuthenticated : Bool
  currentUserId : String
deriving Repr, DecidableEq

/-- The public `token` getter:
```
if (!this._token) {
  this._token = new PushToken(this.storage.get('push_token').token);
}
return this._token;
```
When `_token` is unset and the storage collaborator holds no record,
`this.storage.get('push_token')` is `undefined` and the `.token`
dereference throws a `TypeError`; the total embedding returns `none` for
that state.  Otherwise it returns the token together with the state after
the lazy-load caching side effect. -/
def tokenGet (s : PushState) : Option (PushToken × PushState) :=
  match s._token with
  | some t => some (t, s)
  | none =>
    match s.storage with
    | some rec =>
      let t : PushToken := { token := rec.token }
      some (t, { s with _token := some t })
    | none => none

/-- The public `token` setter: `null`/`undefined` deletes the persisted
record and clears the cache; a token writes `{ token: val.token }`
through to storage and caches the value. -/
def tokenSet (val : Option PushToken) (s : PushState) : PushState :=
  match val with
  | some v => { s with storage := some { token := v.token }, _token := some v }
  | none => { s with storage := none, _token := none }

/-! ## register() -/

/-- Result of the synchronous part of `register()`. -/
inductive RegisterSyncResult
  | rejected (msg : String)
  | pending
deriving Repr, DecidableEq

/-- The synchronous body of `register()` (lines 165–192): if the
registration lock is held, reject with the concurrency error and touch
nothing; otherwise acquire the lock and subscribe a one-shot handler on
`device:ready`. -/
def register_sync (s : PushState) : PushState × RegisterSyncResult :=
  if s.blockRegistration then
    (s, .rejected "Another registration is already in progress.")
  else
    ({ s with blockRegistration := true,
              onceDeviceReadySubs := s.onceDeviceReadySubs + 1 }, .pending)

/-- Result of the `device:ready` once-handler. -/
inductive DeviceReadyResult
  | pendingInit
  | rejected (msg : String)
deriving Repr, DecidableEq

/-- The body of the `device:ready` once-handler subscribed by
`register()` (lines 172–188), parameterised by whether the global plugin
lookup `_getPushPlugin()` finds the plugin.  If present: assign
`this.plugin = pushPlugin.init(...)`, attach the deferred-resolving
`registration` handler, run `_callbackRegistration()` (the permanent
`registration`/`notification`/`error` handlers) and set
`this.registered = true`; the call stays pending.  If absent: reject with
the plugin-not-found error — note no branch here resets
`blockRegistration`. -/
def register_onDeviceReady (pluginPresent : Bool) (s : PushState) :
    PushState × DeviceReadyResult :=
  let s0 := { s with onceDeviceReadySubs := s.onceDeviceReadySubs - 1 }
  if pluginPresent then
    ({ s0 with pluginSet := true,
               deferredRegSubs := s0.deferredRegSubs + 1,
               permanentSubRounds := s0.permanentSubRounds + 1,
               registered := true }, .pendingInit)
  else
    (s0, .rejected "Push plugin not found! See logs.")

/-- The deferred-resolving plugin `registration` handler attached by
`register()` (lines 177–182), fired with the native registration
identifier `t`:
```
this.blockRegistration = false;
this.token = new PushToken(data.registrationId);
this.token.registered = true;
deferred.resolve(this.token);
```
The second line runs the setter (write-through to storage); the third
reads the getter (the freshly cached object) and mutates its
`registered` field in place.  Returns the resolved token. -/
def register_onRegistrationDeferred (t : String) (s : PushState) :
    PushState × PushToken :=
  let s1 := { s with blockRegistration := false }
  let s2 := tokenSet (some { token := t }) s1
  let s3 := match s2._token with
            | some tok => { s2 with _token := some { tok with registered := true } }
            | none => s2
  let resolved := s3._token.getD { token := t }
  (s3, resolved)

/-- The permanent plugin `registration` handler attached by
`_callbackRegistration` (lines 239–247), fired with the same identifier:
`this.token = new PushToken(data.registrationId)` (a fresh token, flags
false) and an emit of `push:register`. -/
def register_onRegistrationPermanent (t : String) (s : PushState) : PushState :=
  tokenSet (some { token := t }) s

/-- The plugin fires its `registration` event with identifier `t` for a
pending `register()` that reached plugin initialization: both attached
handlers run in subscription order (the deferred-resolving one first,
then the permanent one).  Returns the final state and the token the
promise resolved with. -/
def register_fireRegistration (t : String) (s : PushState) :
    PushState × PushToken :=
  let (s1, tok) := register_onRegistrationDeferred t s
  (register_onRegistrationPermanent t s1, tok)

/-! ## saveToken() -/

/-- `SaveTokenOptions` — the only field `push.ts` reads is `ignore_user`
(optional in TypeScript; absent is falsy). -/
structure SaveTokenOptions where
  ignore_user : Bool := false
deriving Repr, DecidableEq

/-- Result of the synchronous part of `saveToken()`: either the remote
`POST /push/tokens` was issued with the given body (callback pending), or
the call was rejected. -/
inductive SaveTokenSyncResult
  | sent (td : ServiceTokenData)
  | rejected (msg : String)
deriving Repr, DecidableEq

/-- The synchronous body of `saveToken(token, options)` (lines 117–155):
build the outgoing record from the token and the configured app id,
attach `user_id` when `ignore_user` is unset and the session is
authenticated, then — if `blockSaveToken` is clear — issue the remote
call, else reject.  Note the source never assigns
`this.blockSaveToken = true`: the synchronous part leaves the state
untouched on every path. -/
def saveToken_sync (c : PushCollab) (token : PushToken)
    (options : SaveTokenOptions) (s : PushState) :
    PushState × SaveTokenSyncResult :=
  let td0 : ServiceTokenData := { token := token.token, app_id := c.appId }
  let td := if !options.ignore_user && c.isAuthenticated then
              { td0 with user_id := some c.currentUserId }
            else td0
  if !s.blockSaveToken then
    (s, .sent td)
  else
    (s, .rejected "A token save operation is already in progress.")

/-- Outcome delivered by `saveToken`'s `.end` callback. -/
inductive SaveTokenOutcome
  | resolved (tok : PushToken)
  | rejected (e : String)
deriving Repr, DecidableEq

/-- The `.end((err, res) => ...)` callback of `saveToken`'s remote call
(lines 135–149): on error clear `blockSaveToken` and reject with the
transport error; on success clear `blockSaveToken`, mark the caller's
token object `saved` and resolve with it. -/
def saveToken_onEnd (err : Option String) (token : PushToken)
    (s : PushState) : PushState × SaveTokenOutcome :=
  let s1 := { s with blockSaveToken := false }
  match err with
  | some e => (s1, .rejected e)
  | none => (s1, .resolved { token with saved := true })

/-! ## unregister() -/

/-- JavaScript truthiness of a `PushToken` value at the
`if (!pushToken)` check in `unregister()`: the getter only ever produces
constructed objects (`new PushToken(...)`), which are never falsy. -/
def pushTokenFalsy (_ : PushToken) : Bool := false

/-- Result of the synchronous part of `unregister()`. -/
inductive UnregisterSyncResult
  | rejected (msg : String)
  | resolvedNow
  | sent (td : ServiceTokenData)
deriving Repr, DecidableEq

/-- The synchronous body of `unregister()` (lines 197–236).  If the
unregister lock is clear: read the `token` getter (which may throw —
modelled by `none` — in which case line 233 is never reached and the
state is unchanged); a falsy token would resolve immediately; otherwise
fire-and-forget the native plugin's `unregister` (no coordinator-state
effect) and issue the remote `POST /push/tokens/invalidate`.  If the lock
is held: reject with the concurrency error.  On every non-throwing path
line 233 then runs `this.blockUnregister = true` before returning. -/
def unregister_sync (c : PushCollab) (s : PushState) :
    Option (PushState × UnregisterSyncResult) :=
  if !s.blockUnregister then
    match tokenGet s with
    | none => none
    | some (tok, s1) =>
      if pushTokenFalsy tok then
        some ({ s1 with blockUnregister := true }, .resolvedNow)
      else
        let td : ServiceTokenData := { token := tok.token, app_id := c.appId }
        some ({ s1 with blockUnregister := true }, .sent td)
  else
    some ({ s with blockUnregister := true },
          .rejected "An unregister operation is already in progress.")

/-- Outcome delivered by `unregister`'s `.end` callback. -/
inductive UnregisterOutcome
  | resolved
  | rejected (e : String)
deriving Repr, DecidableEq

/-- The `.end((err, res) => ...)` callback of `unregister`'s remote call
(lines 216–227): first `this.blockUnregister = false`; on error reject
with the transport error (token untouched); on success run the setter
with `null` (deleting the persisted record and clearing the cache) and
resolve. -/
def unregister_onEnd (err : Option String) (s : PushState) :
    PushState × UnregisterOutcome :=
  let s1 := { s with blockUnregister := false }
  match err with
  | some e => (s1, .rejected e)
  | none => (tokenSet none s1, .resolved)

/-- The final coordinator state of one complete `unregister()` call:
its synchronous part, followed — when a remote call was issued — by the
`.end` callback with transport outcome `err`.  A synchronous throw ends
the call with the state as it was; a rejected or immediately resolved
call has no pending callback. -/
def unregisterFinal (c : PushCollab) (err : Option String) (s : PushState) :
    PushState :=
  match unregister_sync c s with
  | none => s
  | some (s', .sent _) => (unregister_onEnd err s').1
  | some (s', .rejected _) => s'
  | some (s', .resolvedNow) => s'

/-! ## constructor -/

/-- The Android sub-config of `PushOptions.pluginConfig` — the only key
`push.ts` touches is `senderID`. -/
structure PluginConfigAndroid where
  senderID : Option String := none
deriving Repr, DecidableEq

/-- `pluginConfig` as far as `push.ts` manipulates it: the optional
`android` sub-object (other keys pass through untouched). -/
structure PluginConfig where
  android : Option PluginConfigAndroid := none
deriving Repr, DecidableEq

/-- The fields of `PushOptions` the constructor and `register()` read:
`sender_id` and `pluginConfig` (both optional). -/
structure PushOptions where
  sender_id : Option String := none
  pluginConfig : Option PluginConfig := none
deriving Repr, DecidableEq

/-- Result of running the constructor: the coordinator's initial state,
the final `options` (after any `pluginConfig` defaulting and Android
`senderID` injection), and whether the missing-sender-id configuration
error was logged.  The constructor is a total function: it never
throws. -/
structure CtorOutcome where
  state : PushState
  options : PushOptions
  loggedSenderIdError : Bool
deriving Repr, DecidableEq

/-- The `Push` constructor (lines 60–88), parameterised by
`device.isAndroid()` and the record the storage collaborator already
holds.  On Android with no `sender_id`: log the GCM-project-number error
and return early — `options` is left untouched (no `pluginConfig`
defaulting, no `senderID` injection).  Otherwise default `pluginConfig`
to `{}` and, on Android, default the `android` sub-object and inject
`sender_id` as its `senderID` when unset. -/
def construct (isAndroid : Bool) (options : PushOptions)
    (storage : Option PushStorageObject) : CtorOutcome :=
  if isAndroid && options.sender_id.isNone then
    { state := initialState storage, options := options,
      loggedSenderIdError := true }
  else
    let o1 := if options.pluginConfig.isNone then
                { options with pluginConfig := some {} }
              else options
    let o2 := if isAndroid then
                let pc := o1.pluginConfig.getD {}
                let a := pc.android.getD {}
                let a2 := if a.senderID.isNone then
                            { a with senderID := options.sender_id }
                          else a
                { o1 with pluginConfig := some { pc with android := some a2 } }
              else o1
    { state := initialState storage, options := o2,
      loggedSenderIdError := false }

/-! ## Theorems -/

/-- C1: a `register()` call made while a previous registration has been
admitted and not yet completed (the registration lock is held) rejects
immediately with the 'registration already in progress' error and leaves
the entire coordinator state — locks, cached token, persisted record,
plugin handle and subscription counts — unchanged. -/
theorem register_rejects_while_in_flight (s : PushState)
    (h : s.blockRegistration = true) :
    register_sync s = (s, .rejected "Another registration is already in progress.") := by
  simp [register_sync, h]

theorem register_rejects_while_in_flight_witness :
    register_sync { initialState none with blockRegistration := true } =
      ({ initialState none with blockRegistration := true },
       .rejected "Another registration is already in progress.") :=
  register_rejects_while_in_flight _ rfl

/-- C2 counterexample: starting from a fresh coordinator, a `register()`
call is admitted (registration lock acquired) and the `device:ready`
handler then finds the push plugin absent: the call is rejected with the
plugin-not-found error but the registration lock is still held — the
failure path does NOT end with the registration lock cleared, refuting
the claim that every path releasing the operation clears the lock. -/
theorem register_pluginAbsent_lock_left_held :
    (register_sync (initialState none)).2 = .pending ∧
    (register_sync (initialState none)).1.blockRegistration = true ∧
    (register_onDeviceReady false (register_sync (initialState none)).1).2 =
      .rejected "Push plugin not found! See logs." ∧
    (register_onDeviceReady false
        (register_sync (initialState none)).1).1.blockRegistration = true :=
  ⟨rfl, rfl, rfl, rfl⟩

/-- C2 amended: the registration lock is released on the success path
(the plugin's `registration` event clears it), but the plugin-absent
failure path rejects without touching the lock, leaving it exactly as it
was — so a registration that fails because the plugin is absent leaves
the lock held and all subsequent `register()` calls rejected. -/
theorem register_lock_release_paths (s : PushState) (t : String) :
    (register_fireRegistration t s).1.blockRegistration = false ∧
    (register_onDeviceReady false s).1.blockRegistration = s.blockRegistration ∧
    (register_onDeviceReady false s).2 =
      .rejected "Push plugin not found! See logs." := by
  refine ⟨?_, ?_, ?_⟩ <;>
    simp [register_fireRegistration, register_onRegistrationDeferred,
          register_onRegistrationPermanent, tokenSet, register_onDeviceReady]

/-- C5 (code bug): on a coordinator with no in-memory token and no
persisted `push_token` record, `unregister()` does not resolve
immediately — the `token` getter dereferences the absent storage record
(`this.storage.get('push_token').token`) and throws synchronously, so
the call ends in the crash (`none`), issuing no remote call and never
reaching the immediate-resolve branch. -/
theorem unregister_no_token_throws :
    unregister_sync { appId := "app1", isAuthenticated := false,
                      currentUserId := "u1" } (initialState none) = none := rfl

/-- C10: whenever the in-memory token cache is empty and storage holds no
record under the fixed key `push_token`, the total embedding of the
`token` getter returns `none` (the JavaScript getter throws a
`TypeError` there) rather than producing a `PushToken`. -/
theorem tokenGet_empty_state_errors (s : PushState)
    (h1 : s._token = none) (h2 : s.storage = none) : tokenGet s = none := by
  simp [tokenGet, h1, h2]

theorem tokenGet_empty_state_errors_witness :
    tokenGet (initialState none) = none :=
  tokenGet_empty_state_errors (initialState none) rfl rfl

/-- C3 (code bug): `saveToken` never acquires the save lock — its
synchronous part leaves the coordinator state untouched on every path
(no assignment `blockSaveToken := true` exists in the source), so on a
fresh coordinator the first call issues the remote `POST /push/tokens`
with the lock still clear, and a second call made while the first is in
flight also issues its own remote call instead of failing with the
'save operation already in progress' rejection. -/
theorem saveToken_lock_never_acquired :
    (∀ (c : PushCollab) (tok : PushToken) (o : SaveTokenOptions) (s : PushState),
        (saveToken_sync c tok o s).1 = s) ∧
    (saveToken_sync ⟨"app1", true, "u1"⟩ { token := "abc123" } {}
        (initialState none)).2 =
      .sent { token := "abc123", app_id := "app1", user_id := some "u1" } ∧
    (saveToken_sync ⟨"app1", true, "u1"⟩ { token := "abc123" } {}
          (initialState none)).1.blockSaveToken = false ∧
    (saveToken_sync ⟨"app1", true, "u1"⟩ { token := "abc123" } {}
        (saveToken_sync ⟨"app1", true, "u1"⟩ { token := "abc123" } {}
            (initialState none)).1).2 =
      .sent { token := "abc123", app_id := "app1", user_id := some "u1" } := by
  refine ⟨fun c tok o s => ?_, rfl, rfl, rfl⟩
  cases hb : s.blockSaveToken <;> simp [saveToken_sync, hb]

/-- C4: (a) every complete `unregister()` call that lands when no
unregister is in flight ends with the unregister lock cleared — whether
it ends in the synchronous throw of the token getter (no lock was
acquired) or in the `.end` callback of the remote call (which clears the
lock on both outcomes); the immediate-resolve branch is unreachable
(the getter never produces a falsy token).  (b) a call that lands while
one is in flight is rejected with the concurrency error, leaves the
state exactly as it was, and the in-flight operation's own callback
still clears the lock. -/
theorem unregister_lock_discipline (c : PushCollab) (err : Option String)
    (s : PushState) :
    (s.blockUnregister = false →
       (unregisterFinal c err s).blockUnregister = false) ∧
    (s.blockUnregister = true →
       unregister_sync c s =
         some (s, .rejected "An unregister operation is already in progress.") ∧
       ∀ e, (unregister_onEnd e s).1.blockUnregister = false) := by
  constructor
  · intro h
    unfold unregisterFinal unregister_sync
    rw [h]
    cases htg : tokenGet s with
    | none => simpa using h
    | some p =>
      obtain ⟨tok, s1⟩ := p
      cases err <;> simp [pushTokenFalsy, unregister_onEnd, tokenSet]
  · intro h
    constructor
    · unfold unregister_sync
      rw [h]
      cases s
      simp_all
    · intro e
      cases e <;> simp [unregister_onEnd, tokenSet]

theorem unregister_lock_discipline_witness :
    (unregisterFinal { appId := "app1", isAuthenticated := false,
                       currentUserId := "u1" } none
      { initialState (some { token := "abc" }) with
          _token := some { token := "abc" } }).blockUnregister = false :=
  (unregister_lock_discipline _ none _).1 rfl

/-- C6: for every `unregister()` call that reached the remote
'invalidate token' call: the success callback clears both the in-memory
cached token and the persisted `push_token` record and resolves the
promise; the failure callback rejects with the transport error and
leaves the cached and persisted token exactly as they were. -/
theorem unregister_remote_outcomes (c : PushCollab) (s s' : PushState)
    (td : ServiceTokenData) (e : String)
    (_h : unregister_sync c s = some (s', .sent td)) :
    (unregister_onEnd none s').1.storage = none ∧
    (unregister_onEnd none s').1._token = none ∧
    (unregister_onEnd none s').2 = .resolved ∧
    (unregister_onEnd (some e) s').1.storage = s'.storage ∧
    (unregister_onEnd (some e) s').1._token = s'._token ∧
    (unregister_onEnd (some e) s').2 = .rejected e := by
  refine ⟨?_, ?_, ?_, ?_, ?_, ?_⟩ <;> simp [unregister_onEnd, tokenSet]

theorem unregister_remote_outcomes_witness :
    (unregister_onEnd none
        { initialState (some { token := "abc" }) with
            _token := some { token := "abc" },
            blockUnregister := true }).1.storage = none :=
  (unregister_remote_outcomes ⟨"app1", false, "u1"⟩
      { initialState (some { token := "abc" }) with
          _token := some { token := "abc" } }
      _ { token := "abc", app_id := "app1" } "boom" rfl).1

/-- C7: when the native plugin fires the `registration` event with
identifier `t` for a pending `register()`, the promise resolves with a
token whose `token` field equals `t` and whose `registered` flag is
true, storage under the fixed key then holds `{ token := t }`, and
loading back through the getter yields the same token string
(store-then-load round trip). -/
theorem registration_resolves_and_persists (s : PushState) (t : String) :
    (register_fireRegistration t s).2.token = t ∧
    (register_fireRegistration t s).2.registered = true ∧
    (register_fireRegistration t s).1.storage = some { token := t } ∧
    ∃ tok s2, tokenGet (register_fireRegistration t s).1 = some (tok, s2) ∧
      tok.token = t := by
  refine ⟨?_, ?_, ?_, ?_⟩ <;>
    simp [register_fireRegistration, register_onRegistrationDeferred,
          register_onRegistrationPermanent, tokenSet, tokenGet]

/-- C8: the record `saveToken(token, options)` sends contains `user_id`
if and only if `options.ignore_user` is unset and the authentication
collaborator reports the session authenticated, in which case `user_id`
is the current user's id; with `ignore_user` set, `user_id` is never
included even when authenticated. -/
theorem saveToken_user_id_inclusion (c : PushCollab) (tok : PushToken)
    (o : SaveTokenOptions) (s : PushState) (h : s.blockSaveToken = false) :
    ∃ td, (saveToken_sync c tok o s).2 = .sent td ∧
      td.token = tok.token ∧ td.app_id = c.appId ∧
      (td.user_id ≠ none ↔ o.ignore_user = false ∧ c.isAuthenticated = true) ∧
      (o.ignore_user = false → c.isAuthenticated = true →
        td.user_id = some c.currentUserId) ∧
      (o.ignore_user = true → td.user_id = none) := by
  cases hi : o.ignore_user <;> cases ha : c.isAuthenticated <;>
    simp [saveToken_sync, h, hi, ha]

theorem saveToken_user_id_inclusion_witness :
    ∃ td,
      (saveToken_sync { appId := "app1", isAuthenticated := true,
                        currentUserId := "u1" }
          { token := "abc123" } { ignore_user := true }
          (initialState none)).2 = .sent td ∧
      td.user_id = none := by
  obtain ⟨td, h1, _, _, _, _, h6⟩ := saveToken_user_id_inclusion
    { appId := "app1", isAuthenticated := true, currentUserId := "u1" }
    { token := "abc123" } { ignore_user := true } (initialState none) rfl
  exact ⟨td, h1, h6 rfl⟩

/-- C9 counterexample: a coordinator constructed on Android with
`sender_id` missing logs the configuration error, yet it is not inert
for registration: a subsequent `register()` call is admitted, proceeds
through plugin initialization, and completes successfully when the
plugin fires its `registration` event — resolving with a registered
token. -/
theorem androidMissingSenderId_not_inert :
    (construct true { sender_id := none } none).loggedSenderIdError = true ∧
    (register_sync (construct true { sender_id := none } none).state).2 =
      .pending ∧
    (register_onDeviceReady true
        (register_sync (construct true { sender_id := none } none).state).1).2 =
      .pendingInit ∧
    (register_fireRegistration "abc123"
        (register_onDeviceReady true
          (register_sync
            (construct true { sender_id := none } none).state).1).1).2 =
      { token := "abc123", registered := true, saved := false } :=
  ⟨rfl, rfl, rfl, rfl⟩

/-- C9 amended: on Android with `sender_id` missing, the constructor
logs the configuration error and returns early without throwing (it is a
total function yielding an ordinary fresh coordinator) and without
touching `options` (no `pluginConfig` defaulting or `senderID`
injection); the coordinator is NOT made inert — `register()` on it is
still admitted. -/
theorem androidMissingSenderId_logs_and_stays_registrable
    (o : PushOptions) (st : Option PushStorageObject)
    (h : o.sender_id = none) :
    construct true o st =
      { state := initialState st, options := o,
        loggedSenderIdError := true } ∧
    (register_sync (construct true o st).state).2 = .pending := by
  constructor
  · simp [construct, h]
  · simp [construct, h, register_sync, initialState]

theorem androidMissingSenderId_logs_and_stays_registrable_witness :
    construct true { sender_id := none } none =
      { state := initialState none, options := { sender_id := none },
        loggedSenderIdError := true } ∧
    (register_sync (construct true { sender_id := none } none).state).2 =
      .pending :=
  androidMissingSenderId_logs_and_stays_registrable
    { sender_id := none } none rfl

end IonicPush
